import Mathlib

/-!
Shallow embedding of `src/tools/compliance_checker.py` (pipe-works/.github).

The embedding models the repository-compliance checker: the version
comparator `_compare_versions`, profile detection, the per-family check
executors, report aggregation (`RepoReport`) and the directory scanner.

Filesystem access is modelled by a `Repo` value carrying the directory
name, the existing files with their textual contents, and the existing
subdirectories; `Path.exists` becomes membership in that structure and
`read_text` becomes a total lookup (the I/O-failure branches of the
Python code, which catch read exceptions, are outside the shallow
embedding).  YAML parsing of `.pre-commit-config.yaml` is an external
collaborator; its outcome is part of the `Repo` model.

String primitives (splitting, digit tests, substring search) are
implemented on `List Char` by structural recursion so that every
definition evaluates inside the kernel.
-/

namespace ComplianceChecker

/-! ## String primitives -/

/-- Split a character list at every separator character, like Python
`re.split` with a single-character class: `re.split("[.]", "") == [""]`
and `"a..b"` yields `["a", "", "b"]`. -/
def splitOnPred (p : Char → Bool) : List Char → List (List Char)
  | [] => [[]]
  | c :: cs =>
    match splitOnPred p cs with
    | [] => [[c]]
    | t :: ts => if p c then [] :: t :: ts else (c :: t) :: ts

/-- Python `str.isdigit()` for ASCII tokens: nonempty and all characters
are decimal digits.  (Python also accepts some non-ASCII digit
characters; the policy version strings are ASCII.) -/
def isDigitTok (l : List Char) : Bool := !l.isEmpty && l.all Char.isDigit

/-- Python `int(x)` on a digit token. -/
def natOfDigits (l : List Char) : Nat :=
  l.foldl (fun n c => n * 10 + (c.toNat - 48)) 0

/-- Python's substring test `pat in s` / `re.search` of a literal
pattern: the pattern occurs as a contiguous infix. -/
def containsSubstr (s pat : String) : Bool := decide (pat.toList <:+: s.toList)

/-- Python `str.lstrip("v")`: drop every leading `v`. -/
def stripV (s : String) : String := ⟨s.toList.dropWhile (fun c => c = 'v')⟩

/-- Python `url.split("/")[-1]`: the suffix after the last `/` (the
whole string when there is no `/`). -/
def lastSegment (s : String) : String :=
  ⟨(s.toList.reverse.takeWhile (fun c => c ≠ '/')).reverse⟩

/-! ## Version comparator (`_compare_versions`, lines 959-983) -/

/-- `re.split(r"[.\-]", v)`: split on every single `.` or `-` character. -/
def splitVersion (v : String) : List (List Char) :=
  splitOnPred (fun c => c = '.' || c = '-') v.toList

/-- `[int(x) for x in re.split(r"[.\-]", v) if x.isdigit()]`: only
tokens made entirely of digits survive; a mixed token such as `"v0"` is
discarded whole. -/
def versionParts (v : String) : List Nat :=
  ((splitVersion v).filter isDigitTok).map natOfDigits

/-- `parts.extend([0] * (max_len - len(parts)))`. -/
def padZeros (l : List Nat) (len : Nat) : List Nat :=
  l ++ List.replicate (len - l.length) 0

/-- The `for p1, p2 in zip(parts1, parts2, ...)` loop of
`_compare_versions`: return `-1`/`1` at the first differing pair, else
`0`.  (`zip` stops at the shorter list; the caller always passes lists
of equal length, so `strict=True` never raises.) -/
def cmpLoop : List Nat → List Nat → Int
  | p1 :: t1, p2 :: t2 =>
      if p1 < p2 then -1 else if p2 < p1 then 1 else cmpLoop t1 t2
  | _, _ => 0

/-- `_compare_versions(v1, v2)` (lines 959-983): filter the digit-only
tokens, pad the shorter list with trailing zeros, compare positionally. -/
def _compare_versions (v1 v2 : String) : Int :=
  let parts1 := versionParts v1
  let parts2 := versionParts v2
  let maxLen := max parts1.length parts2.length
  cmpLoop (padZeros parts1 maxLen) (padZeros parts2 maxLen)

/-! ## Policy tables (lines 80-175) -/

def PROFILE_PYTHON : String := "python"
def PROFILE_STATIC_SITE : String := "static_site"
def PROFILE_DOCUMENTATION : String := "documentation"
def PROFILE_ORG_CONFIG : String := "org_config"

/-- `PROFILE_INDICATORS` (lines 87-92), as an insertion-ordered
association list. -/
def PROFILE_INDICATORS : List (String × List String) :=
  [(PROFILE_PYTHON, ["pyproject.toml", "setup.py", "setup.cfg", "requirements.txt", "Pipfile"]),
   (PROFILE_STATIC_SITE, ["index.html", "package.json"]),
   (PROFILE_DOCUMENTATION, []),
   (PROFILE_ORG_CONFIG, [".github"])]

/-- `REQUIRED_FILES_BY_PROFILE` (lines 100-105). -/
def REQUIRED_FILES_BY_PROFILE : List (String × List String) :=
  [(PROFILE_PYTHON, ["CLAUDE.md", "LICENSE", "README.md", ".pre-commit-config.yaml", ".gitignore"]),
   (PROFILE_STATIC_SITE, ["CLAUDE.md", "LICENSE", "README.md", ".gitignore"]),
   (PROFILE_DOCUMENTATION, ["LICENSE", "README.md"]),
   (PROFILE_ORG_CONFIG, ["LICENSE", "README.md"])]

/-- `CI_REQUIRED_BY_PROFILE` (lines 108-113). -/
def CI_REQUIRED_BY_PROFILE : List (String × Bool) :=
  [(PROFILE_PYTHON, true),
   (PROFILE_STATIC_SITE, false),
   (PROFILE_DOCUMENTATION, false),
   (PROFILE_ORG_CONFIG, false)]

/-- `PRECOMMIT_REQUIRED_BY_PROFILE` (lines 116-121). -/
def PRECOMMIT_REQUIRED_BY_PROFILE : List (String × Bool) :=
  [(PROFILE_PYTHON, true),
   (PROFILE_STATIC_SITE, false),
   (PROFILE_DOCUMENTATION, false),
   (PROFILE_ORG_CONFIG, false)]

/-- `CLAUDE_MD_SECTIONS_BY_PROFILE` (lines 124-134).  Each required
section carries its detection regex, encoded as alternatives of ordered
literal pieces: the pattern
`(?i)#.*project.*overview|#.*overview` means "some line contains,
case-insensitively and in order, `#` then `project` then `overview`, or
`#` then `overview`" (`.` does not cross newlines, `(?i)` lowers the
case, the literals carry no other regex metacharacters). -/
def CLAUDE_MD_SECTIONS_BY_PROFILE : List (String × List (String × List (List String))) :=
  [(PROFILE_PYTHON,
    [("Project Overview", [["#", "project", "overview"], ["#", "overview"]]),
     ("Common Commands", [["#", "common", "commands"], ["#", "commands"]])]),
   (PROFILE_STATIC_SITE,
    [("Project Overview", [["#", "project", "overview"], ["#", "overview"]])]),
   (PROFILE_DOCUMENTATION, []),
   (PROFILE_ORG_CONFIG, [])]

/-- `REQUIRED_FILES` (line 137), the legacy fallback list. -/
def REQUIRED_FILES : List String :=
  ["CLAUDE.md", "LICENSE", "README.md", ".pre-commit-config.yaml", ".gitignore"]

/-- `CI_WORKFLOW_FILES` (lines 145-147). -/
def CI_WORKFLOW_FILES : List String := [".github/workflows/ci.yml"]

/-- `REQUIRED_PRECOMMIT_HOOKS` (lines 151-162), insertion-ordered. -/
def REQUIRED_PRECOMMIT_HOOKS : List (String × List String) :=
  [("https://github.com/pre-commit/pre-commit-hooks",
    ["trailing-whitespace", "end-of-file-fixer", "check-yaml", "check-added-large-files"]),
   ("https://github.com/psf/black", ["black"]),
   ("https://github.com/astral-sh/ruff-pre-commit", ["ruff"]),
   ("https://github.com/pre-commit/mirrors-mypy", ["mypy"]),
   ("https://github.com/PyCQA/bandit", ["bandit"])]

/-- `MIN_HOOK_VERSIONS` (lines 165-168), insertion-ordered. -/
def MIN_HOOK_VERSIONS : List (String × String) :=
  [("https://github.com/psf/black", "24.0.0"),
   ("https://github.com/astral-sh/ruff-pre-commit", "v0.1.0")]

/-- `LICENSE_PATTERNS` (lines 172-175); both entries are literal
regexes, so `re.search` is substring search. -/
def LICENSE_PATTERNS : List String := ["GNU GENERAL PUBLIC LICENSE", "Version 3,"]

/-- Python `dict.get(key, default)` over an insertion-ordered
association list (keys in the tables above are distinct). -/
def dictGet (table : List (String × α)) (key : String) (dflt : α) : α :=
  ((table.find? (fun p => p.1 = key)).map Prod.snd).getD dflt

/-! ## Data model (`CheckResult`, `RepoReport`, lines 507-580) -/

/-- `CheckResult` dataclass (lines 507-515). -/
structure CheckResult where
  name : String
  passed : Bool
  message : String
  severity : String := "error"
  fix_command : Option String := none
deriving DecidableEq

/-- `RepoReport` dataclass (lines 528-536); `repo_path` is modelled by
the resolved directory name. -/
structure RepoReport where
  repo_path : String
  repo_name : String
  checks : List CheckResult := []
  is_python_project : Bool := false
  profile : String := PROFILE_PYTHON
deriving DecidableEq

/-- `RepoReport.passed_count` (lines 538-541). -/
def RepoReport.passed_count (r : RepoReport) : Nat :=
  r.checks.countP (fun c => c.passed)

/-- `RepoReport.failed_count` (lines 543-546). -/
def RepoReport.failed_count (r : RepoReport) : Nat :=
  r.checks.countP (fun c => !c.passed)

/-- `RepoReport.total_count` (lines 548-551). -/
def RepoReport.total_count (r : RepoReport) : Nat := r.checks.length

/-- `RepoReport.score_percent` (lines 553-558); Python floats on these
exact small fractions behave as rationals. -/
def RepoReport.score_percent (r : RepoReport) : ℚ :=
  if r.total_count = 0 then 0
  else ((r.passed_count : ℚ) / (r.total_count : ℚ)) * 100

/-- `RepoReport.is_compliant` (lines 560-563):
`all(c.passed for c in self.checks if c.severity == "error")`. -/
def RepoReport.is_compliant (r : RepoReport) : Bool :=
  (r.checks.filter (fun c => c.severity = "error")).all (fun c => c.passed)

/-! ## Filesystem and YAML model -/

/-- One entry of the decoded `repos` sequence: `repo.get("repo", "")`,
`repo.get("rev", "")` and the hook ids `[h.get("id", "") for h in
repo.get("hooks", [])]`. -/
structure RepoEntry where
  repo : String := ""
  rev : String := ""
  hooks : List String := []
deriving DecidableEq

/-- Outcome of `yaml.safe_load` on `.pre-commit-config.yaml`, supplied
by the external YAML collaborator: `parseError` models a raised
`yaml.YAMLError`; `invalid` models `not config or "repos" not in
config`; `ok` carries the decoded `repos` sequence. -/
inductive YamlResult where
  | parseError (msg : String)
  | invalid
  | ok (repos : List RepoEntry)
deriving DecidableEq

/-- A repository directory: its own name, the files existing at (or
below) the root with their contents, the existing subdirectories, and
the YAML outcome for `.pre-commit-config.yaml`. -/
structure Repo where
  name : String
  files : List (String × String) := []
  dirs : List String := []
  precommitYaml : YamlResult := .invalid
deriving DecidableEq

/-- `Path.exists`: true for an existing file or directory. -/
def Repo.pathExists (r : Repo) (p : String) : Bool :=
  r.files.any (fun f => f.1 = p) || r.dirs.contains p

/-- `Path.read_text` on an existing file (the code only reads files it
has found to exist). -/
def Repo.readText (r : Repo) (p : String) : String :=
  ((r.files.find? (fun f => f.1 = p)).map Prod.snd).getD ""

/-! ## Check executors (lines 588-956) -/

/-- `check_required_files` (lines 588-614). -/
def check_required_files (r : Repo) (profile : String) : List CheckResult :=
  (dictGet REQUIRED_FILES_BY_PROFILE profile REQUIRED_FILES).map (fun filename =>
    if r.pathExists filename then
      { name := "file:" ++ filename, passed := true,
        message := filename ++ " exists" }
    else
      { name := "file:" ++ filename, passed := false,
        message := filename ++ " is missing", severity := "error" })

/-- `check_python_project_files` (lines 617-652). -/
def check_python_project_files (r : Repo) : List CheckResult :=
  if r.pathExists "pyproject.toml" then
    [{ name := "python:pyproject.toml", passed := true,
       message := "pyproject.toml exists (modern Python project)" }]
  else if r.pathExists "setup.py" then
    [{ name := "python:setup.py", passed := true,
       message := "setup.py exists (legacy Python project)", severity := "warning" }]
  else
    [{ name := "python:project_config", passed := false,
       message := "No pyproject.toml or setup.py found", severity := "error" }]

/-- `check_ci_workflows` (lines 655-679). -/
def check_ci_workflows (r : Repo) : List CheckResult :=
  CI_WORKFLOW_FILES.map (fun workflow_path =>
    if r.pathExists workflow_path then
      { name := "ci:" ++ workflow_path, passed := true,
        message := "CI workflow " ++ workflow_path ++ " exists" }
    else
      { name := "ci:" ++ workflow_path, passed := false,
        message := "CI workflow " ++ workflow_path ++ " is missing", severity := "error" })

/-- `check_license` (lines 682-722); `re.search` of the literal
`LICENSE_PATTERNS` is substring search, and the model's reads never
fail, so the `except` branch is unreachable here. -/
def check_license (r : Repo) : List CheckResult :=
  if !r.pathExists "LICENSE" then []
  else
    let content := r.readText "LICENSE"
    let is_gpl3 := LICENSE_PATTERNS.all (fun pattern => containsSubstr content pattern)
    if is_gpl3 then
      [{ name := "license:gpl3", passed := true, message := "LICENSE is GPL-3.0" }]
    else
      [{ name := "license:gpl3", passed := false,
         message := "LICENSE does not appear to be GPL-3.0", severity := "error" }]

/-- The `configured_hooks` / `configured_versions` dicts of
`check_precommit_config` (lines 749-759): iterating the `repos` list
and assigning per URL means the LAST entry with a given URL wins, and a
URL is a key iff some entry carries it. -/
def lookupLast (repos : List RepoEntry) (url : String) : Option RepoEntry :=
  (repos.filter (fun e => e.repo = url)).getLast?

/-- The `for repo_url, required_hook_ids in REQUIRED_PRECOMMIT_HOOKS.items()`
body (lines 762-791): a missing repo URL yields one failing result and
`continue`; otherwise one result per required hook id. -/
def hookChecks (repos : List RepoEntry) (url : String) (ids : List String) :
    List CheckResult :=
  match lookupLast repos url with
  | none =>
      [{ name := "precommit:repo:" ++ lastSegment url, passed := false,
         message := "Missing pre-commit repo: " ++ url, severity := "error" }]
  | some e =>
      ids.map (fun hook_id =>
        if e.hooks.contains hook_id then
          { name := "precommit:hook:" ++ hook_id, passed := true,
            message := "Hook '" ++ hook_id ++ "' is configured" }
        else
          { name := "precommit:hook:" ++ hook_id, passed := false,
            message := "Hook '" ++ hook_id ++ "' is not configured", severity := "error" })

/-- The body of the minimum-version comparison (lines 796-820): strip
leading `v` from both sides, compare, emit a pass or a failing warning.
The surrounding `try/except ValueError` is dead for ASCII inputs:
`_compare_versions` only converts digit-filtered tokens, so `int` never
raises and the comparison always returns. -/
def versionResult (url current_version min_version : String) : CheckResult :=
  if 0 ≤ _compare_versions (stripV current_version) (stripV min_version) then
    { name := "precommit:version:" ++ lastSegment url, passed := true,
      message := "Version " ++ current_version ++ " >= " ++ min_version }
  else
    { name := "precommit:version:" ++ lastSegment url, passed := false,
      message := "Version " ++ current_version ++ " < " ++ min_version ++ " (update recommended)",
      severity := "warning", fix_command := some "pre-commit autoupdate" }

/-- The `for repo_url, min_version in MIN_HOOK_VERSIONS.items()` loop
(lines 794-823): only URLs present in the parsed config are checked. -/
def versionChecks (repos : List RepoEntry) : List CheckResult :=
  MIN_HOOK_VERSIONS.flatMap (fun p =>
    match lookupLast repos p.1 with
    | none => []
    | some e => [versionResult p.1 e.rev p.2])

/-- `check_precommit_config` (lines 725-844). -/
def check_precommit_config (r : Repo) : List CheckResult :=
  if !r.pathExists ".pre-commit-config.yaml" then []
  else
    match r.precommitYaml with
    | .parseError msg =>
        [{ name := "precommit:parse", passed := false,
           message := "Failed to parse .pre-commit-config.yaml: " ++ msg,
           severity := "error" }]
    | .invalid =>
        [{ name := "precommit:valid_config", passed := false,
           message := ".pre-commit-config.yaml is empty or invalid",
           severity := "error" }]
    | .ok repos =>
        (REQUIRED_PRECOMMIT_HOOKS.flatMap (fun p => hookChecks repos p.1 p.2))
          ++ versionChecks repos

/-- `check_precommit_installed` (lines 847-905); the model's reads never
fail, so the `except` branch is unreachable here. -/
def check_precommit_installed (r : Repo) : List CheckResult :=
  if !r.pathExists ".git" then
    [{ name := "git:repository", passed := false,
       message := "Not a git repository", severity := "warning" }]
  else if r.pathExists ".git/hooks/pre-commit" then
    if containsSubstr (r.readText ".git/hooks/pre-commit") "pre-commit" then
      [{ name := "precommit:installed", passed := true,
         message := "Pre-commit hooks are installed" }]
    else
      [{ name := "precommit:installed", passed := false,
         message := "Git pre-commit hook exists but is not pre-commit",
         severity := "warning" }]
  else
    [{ name := "precommit:installed", passed := false,
       message := "Pre-commit hooks not installed", severity := "error",
       fix_command := some "pre-commit install" }]

/-! ### CLAUDE.md section matching (`check_claude_md_content`) -/

/-- The suffix after the first occurrence of `pat`, if `pat` occurs. -/
def dropAfterFirst (pat : List Char) : List Char → Option (List Char)
  | [] => if pat.isEmpty then some [] else none
  | c :: cs =>
      if pat.isPrefixOf (c :: cs) then some ((c :: cs).drop pat.length)
      else dropAfterFirst pat cs

/-- Sequential non-overlapping occurrence of the literal pieces, in
order (the `lit₁.*lit₂.*lit₃` shape of the section regexes, within one
line). -/
def seqContains (cs : List Char) : List (List Char) → Bool
  | [] => true
  | pat :: rest =>
      match dropAfterFirst pat cs with
      | none => false
      | some rem => seqContains rem rest

/-- `re.search(pattern, content)` for the section regexes of
`CLAUDE_MD_SECTIONS_BY_PROFILE`: some alternative matches inside some
line, case-insensitively. -/
def sectionFound (alternatives : List (List String)) (content : String) : Bool :=
  (splitOnPred (fun c => c = '\n') content.toList).any (fun line =>
    alternatives.any (fun alt =>
      seqContains (line.map Char.toLower) (alt.map (fun piece => piece.toList))))

/-- `section_name.lower().replace(" ", "_")` (lines 931, 939). -/
def sectionSlug (s : String) : String :=
  ⟨s.toList.map (fun c => if c = ' ' then '_' else c.toLower)⟩

/-- `check_claude_md_content` (lines 908-956). -/
def check_claude_md_content (r : Repo) (profile : String) : List CheckResult :=
  if !r.pathExists "CLAUDE.md" then []
  else
    let recommended_sections := dictGet CLAUDE_MD_SECTIONS_BY_PROFILE profile []
    if recommended_sections.isEmpty then []
    else
      let content := r.readText "CLAUDE.md"
      recommended_sections.map (fun s =>
        if sectionFound s.2 content then
          { name := "claude_md:" ++ sectionSlug s.1, passed := true,
            message := "CLAUDE.md has '" ++ s.1 ++ "' section" }
        else
          { name := "claude_md:" ++ sectionSlug s.1, passed := false,
            message := "CLAUDE.md missing '" ++ s.1 ++ "' section",
            severity := "warning" })

/-! ## Orchestrator (lines 991-1107) -/

/-- `detect_profile` (lines 991-1024): first-match-wins cascade. -/
def detect_profile (r : Repo) : String :=
  if r.name = ".github" then PROFILE_ORG_CONFIG
  else if (dictGet PROFILE_INDICATORS PROFILE_PYTHON []).any r.pathExists then
    PROFILE_PYTHON
  else if (dictGet PROFILE_INDICATORS PROFILE_STATIC_SITE []).any r.pathExists then
    PROFILE_STATIC_SITE
  else PROFILE_DOCUMENTATION

/-- `check_repository` (lines 1039-1087): fixed category order. -/
def check_repository (r : Repo) : RepoReport :=
  let profile := detect_profile r
  { repo_path := r.name,
    repo_name := r.name,
    is_python_project := profile = PROFILE_PYTHON,
    profile := profile,
    checks :=
      check_required_files r profile
        ++ check_license r
        ++ (if dictGet CI_REQUIRED_BY_PROFILE profile false then
              check_ci_workflows r else [])
        ++ (if dictGet PRECOMMIT_REQUIRED_BY_PROFILE profile false then
              check_precommit_config r ++ check_precommit_installed r else [])
        ++ check_claude_md_content r profile
        ++ (if profile = PROFILE_PYTHON then check_python_project_files r else []) }

/-- One entry of `dir_path.iterdir()`: its name, whether it is a
directory, and (for directories) its contents. -/
structure DirEntry where
  name : String
  isDir : Bool
  files : List (String × String) := []
  dirs : List String := []
  precommitYaml : YamlResult := .invalid
deriving DecidableEq

/-- The repository rooted at a directory entry. -/
def DirEntry.toRepo (e : DirEntry) : Repo :=
  { name := e.name, files := e.files, dirs := e.dirs, precommitYaml := e.precommitYaml }

/-- Lexicographic code-point order on character lists: the order in
which `sorted(dir_path.iterdir())` arranges sibling entry names. -/
def charListLe : List Char → List Char → Bool
  | [], _ => true
  | _ :: _, [] => false
  | a :: as, b :: bs =>
      if a.toNat < b.toNat then true
      else if b.toNat < a.toNat then false
      else charListLe as bs

def charListLe_total (l1 l2 : List Char) :
    charListLe l1 l2 = true ∨ charListLe l2 l1 = true := by
  induction l1 generalizing l2 with
  | nil => exact Or.inl rfl
  | cons a as ih =>
    cases l2 with
    | nil => exact Or.inr rfl
    | cons b bs =>
      rcases Nat.lt_trichotomy a.toNat b.toNat with h | h | h
      · exact Or.inl (by simp [charListLe, h])
      · rcases ih bs with hle | hle
        · exact Or.inl (by simp [charListLe, h, hle])
        · exact Or.inr (by simp [charListLe, h, hle])
      · exact Or.inr (by simp [charListLe, h])

def charListLe_trans : ∀ l1 l2 l3 : List Char,
    charListLe l1 l2 = true → charListLe l2 l3 = true → charListLe l1 l3 = true
  | [], _, _, _, _ => rfl
  | _ :: _, [], _, h, _ => by simp [charListLe] at h
  | _ :: _, _ :: _, [], _, h => by simp [charListLe] at h
  | a :: as, b :: bs, c :: cs, h1, h2 => by
    simp only [charListLe] at h1 h2 ⊢
    by_cases hab : a.toNat < b.toNat
    · by_cases hbc : b.toNat < c.toNat
      · rw [if_pos (by omega)]
      · rw [if_neg hbc] at h2
        by_cases hcb : c.toNat < b.toNat
        · rw [if_pos hcb] at h2
          exact absurd h2 (by simp)
        · rw [if_neg hcb] at h2
          rw [if_pos (by omega)]
    · rw [if_neg hab] at h1
      by_cases hba : b.toNat < a.toNat
      · rw [if_pos hba] at h1
        exact absurd h1 (by simp)
      · rw [if_neg hba] at h1
        by_cases hbc : b.toNat < c.toNat
        · rw [if_pos (by omega)]
        · rw [if_neg hbc] at h2
          by_cases hcb : c.toNat < b.toNat
          · rw [if_pos hcb] at h2
            exact absurd h2 (by simp)
          · rw [if_neg hcb] at h2
            rw [if_neg (by omega), if_neg (by omega)]
            exact charListLe_trans as bs cs h1 h2

/-- The name order used by `sorted(dir_path.iterdir())` (paths under a
common parent compare by entry name, code-point lexicographically). -/
def entryLE (a b : DirEntry) : Prop :=
  charListLe a.name.toList b.name.toList = true

instance : DecidableRel entryLE := fun a b =>
  inferInstanceAs (Decidable (charListLe a.name.toList b.name.toList = true))

instance : IsTotal DirEntry entryLE :=
  ⟨fun a b => charListLe_total a.name.toList b.name.toList⟩

instance : IsTrans DirEntry entryLE :=
  ⟨fun _ _ _ h h' => charListLe_trans _ _ _ h h'⟩

/-- `scan_directory` (lines 1090-1107): iterate the sorted entries,
keep directories containing a `.git` entry, check each. -/
def scan_directory (entries : List DirEntry) : List RepoReport :=
  (((entries.insertionSort entryLE).filter
      (fun e => e.isDir && e.toRepo.pathExists ".git")).map
    (fun e => check_repository e.toRepo))

/-! ## Comparator lemmas -/

/-- Sign of a pair comparison, the spec's "sign of the first differing
element pair". -/
def natSign (p q : Nat) : Int := if p < q then -1 else if q < p then 1 else 0

/-- The spec's description of the comparison loop: the sign of the
first differing element pair, or `0` if all pairs agree. -/
def firstDiffSign (l1 l2 : List Nat) : Int :=
  match (l1.zip l2).find? (fun p => p.1 ≠ p.2) with
  | some p => natSign p.1 p.2
  | none => 0

/-- A one-check report whose single check has severity "warning". -/
def warningOnlyReport : RepoReport :=
  { repo_path := "p", repo_name := "n",
    checks := [{ name := "a", passed := true, message := "m", severity := "warning" }] }

theorem firstDiffSign_cons (p1 p2 : Nat) (t1 t2 : List Nat) :
    firstDiffSign (p1 :: t1) (p2 :: t2) =
      if p1 = p2 then firstDiffSign t1 t2 else natSign p1 p2 := by
  by_cases h : p1 = p2
  · subst h
    simp [firstDiffSign, List.zip, List.zip_cons_cons, List.find?]
  · simp [firstDiffSign, List.zip, List.zip_cons_cons, List.find?, h]

theorem cmpLoop_eq_firstDiffSign : ∀ l1 l2 : List Nat,
    cmpLoop l1 l2 = firstDiffSign l1 l2
  | [], l2 => by cases l2 <;> rfl
  | _ :: _, [] => rfl
  | p1 :: t1, p2 :: t2 => by
    rw [firstDiffSign_cons]
    rcases Nat.lt_trichotomy p1 p2 with h | h | h
    · have hne : p1 ≠ p2 := Nat.ne_of_lt h
      simp [cmpLoop, natSign, h, hne]
    · subst h
      simp [cmpLoop, Nat.lt_irrefl, cmpLoop_eq_firstDiffSign t1 t2]
    · have hne : p1 ≠ p2 := (Nat.ne_of_lt h).symm
      simp [cmpLoop, natSign, h, hne, Nat.lt_asymm h]

theorem cmpLoop_neg : ∀ l1 l2 : List Nat, cmpLoop l1 l2 = -cmpLoop l2 l1
  | [], [] => rfl
  | [], _ :: _ => rfl
  | _ :: _, [] => rfl
  | p1 :: t1, p2 :: t2 => by
    rcases Nat.lt_trichotomy p1 p2 with h | h | h
    · simp [cmpLoop, h, Nat.lt_asymm h]
    · subst h
      simp [cmpLoop, Nat.lt_irrefl, cmpLoop_neg t1 t2]
    · simp [cmpLoop, h, Nat.lt_asymm h]

theorem compare_versions_antisymm_aux (a b : String) :
    _compare_versions a b = - _compare_versions b a := by
  calc _compare_versions a b
      = cmpLoop
          (padZeros (versionParts a) (max (versionParts a).length (versionParts b).length))
          (padZeros (versionParts b) (max (versionParts a).length (versionParts b).length)) := rfl
    _ = -cmpLoop
          (padZeros (versionParts b) (max (versionParts a).length (versionParts b).length))
          (padZeros (versionParts a) (max (versionParts a).length (versionParts b).length)) :=
        cmpLoop_neg _ _
    _ = - _compare_versions b a := by
        rw [max_comm (versionParts a).length (versionParts b).length]
        rfl

theorem cmpLoop_replicate_zero (l : List Nat) (h : ∃ k ∈ l, 0 < k) :
    cmpLoop (List.replicate l.length 0) l = -1 := by
  induction l with
  | nil => simp at h
  | cons a t ih =>
    simp only [List.length_cons, List.replicate_succ, cmpLoop]
    by_cases ha : 0 < a
    · rw [if_pos ha]
    · rw [if_neg ha, if_neg (by omega)]
      rcases h with ⟨k, hk, hkpos⟩
      rcases List.mem_cons.mp hk with h1 | h1
      · omega
      · exact ih ⟨k, h1, hkpos⟩

/-- When the left side has no numeric components and the right side has
a positive one, the comparator returns `-1`: the empty sequence is
padded to all zeros, not skipped. -/
theorem compare_no_parts_lt (v m : String) (hv : versionParts v = [])
    (hm : ∃ k ∈ versionParts m, 0 < k) :
    _compare_versions v m = -1 := by
  unfold _compare_versions
  rw [hv]
  simp only [List.length_nil, Nat.zero_max, padZeros, List.nil_append,
    Nat.sub_zero, Nat.sub_self, List.replicate_zero, List.append_nil]
  exact cmpLoop_replicate_zero _ hm

/-- When the configured rev has no numeric components after stripping
leading `v`s, the comparison against either policy minimum (both of
which have a positive component) returns `-1`, so `versionResult` is
the failing warning, not a skip. -/
theorem versionResult_nonnumeric (url current minV : String)
    (hmin : (url, minV) ∈ MIN_HOOK_VERSIONS)
    (hnone : versionParts (stripV current) = []) :
    versionResult url current minV =
      { name := "precommit:version:" ++ lastSegment url, passed := false,
        message := "Version " ++ current ++ " < " ++ minV ++ " (update recommended)",
        severity := "warning", fix_command := some "pre-commit autoupdate" } := by
  have hcmp : _compare_versions (stripV current) (stripV minV) = -1 := by
    apply compare_no_parts_lt _ _ hnone
    simp only [MIN_HOOK_VERSIONS, List.mem_cons, List.not_mem_nil, or_false,
      Prod.mk.injEq] at hmin
    rcases hmin with ⟨_, hm⟩ | ⟨_, hm⟩ <;> subst hm
    · exact ⟨24, by decide, by decide⟩
    · exact ⟨1, by decide, by decide⟩
  unfold versionResult
  rw [hcmp, if_neg (by decide)]

/-! ## Claims -/

/-- C1, counterexample.  The claim says a rev with no parseable numeric
components ("abc") is silently skipped with no CheckResult for that
repo URL.  On the concrete config pinning psf/black at rev "abc",
`check_precommit_config` emits a failing `warning` version result for
that URL: the empty component list is padded with zeros and compared
against 24.0.0, yielding -1, so the check is not skipped. -/
theorem C1_counterexample_nonnumeric_rev_emits_result :
    (⟨"precommit:version:black", false,
      "Version abc < 24.0.0 (update recommended)", "warning",
      some "pre-commit autoupdate"⟩ : CheckResult) ∈
      check_precommit_config
        { name := "demo",
          files := [(".pre-commit-config.yaml", "repos:")],
          precommitYaml := .ok
            [{ repo := "https://github.com/psf/black", rev := "abc",
               hooks := ["black"] }] } := by
  decide

/-- C1, amended.  In the pre-commit minimum-version check, whenever the
configured rev (after stripping leading `v`s) yields no parseable
numeric components, the version check is NOT skipped: the empty
sequence is padded with zeros, the comparison against the (numeric)
minimum returns -1, and a failing `warning` CheckResult with fix
command "pre-commit autoupdate" is emitted for that repo URL.  (The
`except ValueError` skip path of the code is unreachable for such
inputs.) -/
theorem C1_amended_nonnumeric_rev_fails_warning
    (r : Repo) (repos : List RepoEntry) (e : RepoEntry) (url minV : String)
    (hfile : r.pathExists ".pre-commit-config.yaml" = true)
    (hyaml : r.precommitYaml = .ok repos)
    (hmin : (url, minV) ∈ MIN_HOOK_VERSIONS)
    (hlook : lookupLast repos url = some e)
    (hnone : versionParts (stripV e.rev) = []) :
    (⟨"precommit:version:" ++ lastSegment url, false,
      "Version " ++ e.rev ++ " < " ++ minV ++ " (update recommended)", "warning",
      some "pre-commit autoupdate"⟩ : CheckResult) ∈ check_precommit_config r := by
  unfold check_precommit_config
  rw [hfile]
  simp only [Bool.not_true, Bool.false_eq_true, if_false, hyaml]
  apply List.mem_append_right
  unfold versionChecks
  apply List.mem_flatMap.mpr
  refine ⟨(url, minV), hmin, ?_⟩
  simp only [hlook]
  rw [versionResult_nonnumeric url e.rev minV hmin hnone]
  exact List.mem_singleton.mpr rfl

/-- C1 amended, witness: the concrete repo pinning psf/black at rev
"abc" discharges every hypothesis of the amended theorem. -/
theorem C1_amended_nonnumeric_rev_fails_warning_witness :
    (⟨"precommit:version:" ++ lastSegment "https://github.com/psf/black", false,
      "Version " ++ "abc" ++ " < " ++ "24.0.0" ++ " (update recommended)", "warning",
      some "pre-commit autoupdate"⟩ : CheckResult) ∈
      check_precommit_config
        { name := "demo",
          files := [(".pre-commit-config.yaml", "repos:")],
          precommitYaml := .ok
            [{ repo := "https://github.com/psf/black", rev := "abc",
               hooks := ["black"] }] } :=
  C1_amended_nonnumeric_rev_fails_warning
    { name := "demo",
      files := [(".pre-commit-config.yaml", "repos:")],
      precommitYaml := .ok
        [{ repo := "https://github.com/psf/black", rev := "abc", hooks := ["black"] }] }
    [{ repo := "https://github.com/psf/black", rev := "abc", hooks := ["black"] }]
    { repo := "https://github.com/psf/black", rev := "abc", hooks := ["black"] }
    "https://github.com/psf/black" "24.0.0"
    (by decide) rfl (by decide) (by decide) (by decide)

/-- C2, counterexample.  The claim says digits are still extracted from
a mixed token such as "v0", so that compare("0.8.0", "v0.1.0") = 1.
In fact `_compare_versions` keeps only tokens made entirely of digits:
"v0" is discarded whole, "v0.1.0" contributes [1, 0], and the
comparison of [0, 8, 0] against the padded [1, 0, 0] returns -1, not 1. -/
theorem C2_counterexample_mixed_token_dropped :
    _compare_versions "0.8.0" "v0.1.0" = -1 ∧
    ¬ _compare_versions "0.8.0" "v0.1.0" = 1 := by
  constructor <;> decide

/-- C2, amended.  The comparator splits each input on `.` and `-` and
keeps, in order, only the tokens made entirely of decimal digits; a
token mixing letters and digits such as "v0" is ignored whole (its
digits are NOT extracted), so compare("0.8.0", "v0.1.0") = -1, while
compare("0.8.0", "0.1.0") = 1 once the caller has stripped the leading
`v` (as the call site does) and compare("24.10.0", "24.0.0") = 1. -/
theorem C2_amended_digit_only_tokens_kept :
    isDigitTok ['v', '0'] = false ∧
    versionParts "v0.1.0" = [1, 0] ∧
    versionParts "0.1.0" = [0, 1, 0] ∧
    _compare_versions "0.8.0" "v0.1.0" = -1 ∧
    _compare_versions "0.8.0" "0.1.0" = 1 ∧
    _compare_versions "24.10.0" "24.0.0" = 1 := by
  refine ⟨by decide, by decide, by decide, by decide, by decide, by decide⟩

/-- C3: for every pair of version strings the comparator pads the
shorter extracted integer sequence with trailing zeros to the common
length and returns the sign of the first differing element pair (0 if
all pairs agree); concretely compare("24.10.0", "24.0.0") = 1 and
compare("1.13.0", "1.13.0") = 0 (the two sides after stripping the
leading `v` from "v1.13.0"). -/
theorem C3_compare_pads_and_signs_first_difference :
    (∀ v1 v2 : String,
      _compare_versions v1 v2 =
        firstDiffSign
          (padZeros (versionParts v1)
            (max (versionParts v1).length (versionParts v2).length))
          (padZeros (versionParts v2)
            (max (versionParts v1).length (versionParts v2).length))) ∧
    _compare_versions "24.10.0" "24.0.0" = 1 ∧
    _compare_versions "1.13.0" (stripV "v1.13.0") = 0 := by
  refine ⟨fun v1 v2 => cmpLoop_eq_firstDiffSign _ _, by decide, by decide⟩

/-- C10: the version comparator is antisymmetric — for every pair of
input strings, compare(a, b) = -compare(b, a), and consequently
compare(a, a) = 0 for every string. -/
theorem C10_version_comparator_antisymmetric :
    (∀ a b : String, _compare_versions a b = - _compare_versions b a) ∧
    (∀ a : String, _compare_versions a a = 0) := by
  refine ⟨compare_versions_antisymm_aux, fun a => ?_⟩
  have h := compare_versions_antisymm_aux a a
  omega

/-- C4: profile detection is a total first-match-wins cascade — the
`.github` directory name forces `org_config` regardless of contents,
otherwise any Python indicator file forces `python`, otherwise any
static-site indicator forces `static_site`, otherwise the result is
`documentation`. -/
theorem C4_detect_profile_first_match_cascade (r : Repo) :
    detect_profile r =
      (if r.name = ".github" then "org_config"
       else if ["pyproject.toml", "setup.py", "setup.cfg", "requirements.txt",
           "Pipfile"].any r.pathExists then "python"
       else if ["index.html", "package.json"].any r.pathExists then "static_site"
       else "documentation") := by
  rfl

/-- C5: the license check emits nothing without a `LICENSE` file; with
one it emits exactly one `license:gpl3` result passing iff the text
contains both the literal "GNU GENERAL PUBLIC LICENSE" and the literal
"Version 3," (as substrings, case-sensitively); an empty `LICENSE`
yields a failing result of severity `error`. -/
theorem C5_license_single_result_two_literals (r : Repo) :
    check_license r =
      (if r.pathExists "LICENSE" then
        (if containsSubstr (r.readText "LICENSE") "GNU GENERAL PUBLIC LICENSE" &&
            containsSubstr (r.readText "LICENSE") "Version 3," then
          [{ name := "license:gpl3", passed := true, message := "LICENSE is GPL-3.0" }]
         else
          [{ name := "license:gpl3", passed := false,
             message := "LICENSE does not appear to be GPL-3.0", severity := "error" }])
       else []) ∧
    (∀ content pat : String,
      containsSubstr content pat = true ↔ pat.toList <:+: content.toList) ∧
    check_license { name := "empty", files := [("LICENSE", "")] } =
      [{ name := "license:gpl3", passed := false,
         message := "LICENSE does not appear to be GPL-3.0", severity := "error" }] := by
  refine ⟨?_, ?_, by decide⟩
  · unfold check_license
    by_cases h : r.pathExists "LICENSE" <;>
      simp [h, LICENSE_PATTERNS]
  · intro content pat
    simp [containsSubstr]

/-- C6: for every report, `score_percent` is
`passed_count / total_count * 100` (0 on an empty check list), and
`is_compliant` holds iff every check of severity "error" passed, so
non-error severities never affect compliance and a report without
error-severity checks is trivially compliant. -/
theorem C6_score_and_compliance (r : RepoReport) :
    (r.checks ≠ [] →
      r.score_percent = ((r.passed_count : ℚ) / (r.total_count : ℚ)) * 100) ∧
    (r.checks = [] → r.score_percent = 0) ∧
    (r.is_compliant = true ↔
      ∀ c ∈ r.checks, c.severity = "error" → c.passed = true) ∧
    ((∀ c ∈ r.checks, c.severity ≠ "error") → r.is_compliant = true) := by
  refine ⟨?_, ?_, ?_, ?_⟩
  · intro h
    unfold RepoReport.score_percent
    rw [if_neg]
    simpa [RepoReport.total_count] using h
  · intro h
    unfold RepoReport.score_percent
    rw [if_pos]
    simp [RepoReport.total_count, h]
  · simp only [RepoReport.is_compliant, List.all_eq_true, List.mem_filter]
    constructor
    · intro h c hc hsev
      exact (h c ⟨hc, by simp [hsev]⟩)
    · rintro h c ⟨hc, hsev⟩
      exact h c hc (of_decide_eq_true hsev)
  · intro h
    simp only [RepoReport.is_compliant, List.all_eq_true, List.mem_filter]
    rintro c ⟨hc, hsev⟩
    exact absurd (of_decide_eq_true hsev) (h c hc)

/-- C6, witness: the one-warning report has a nonempty check list, its
score is passed/total*100, and it is trivially compliant. -/
theorem C6_score_and_compliance_witness :
    warningOnlyReport.score_percent =
      ((warningOnlyReport.passed_count : ℚ) / (warningOnlyReport.total_count : ℚ)) * 100 ∧
    warningOnlyReport.is_compliant = true :=
  ⟨(C6_score_and_compliance warningOnlyReport).1 (by decide),
   (C6_score_and_compliance warningOnlyReport).2.2.2 (by decide)⟩

/-- C9: the pre-commit-installed check emits exactly one result — a
failing warning "Not a git repository" when `.git` is absent; a failing
error with fix command "pre-commit install" when `.git` exists but the
hook file does not; a failing warning when the hook file exists but
does not contain the substring "pre-commit"; a pass when it does. -/
theorem C9_precommit_installed_exactly_one_result (r : Repo) :
    check_precommit_installed r =
      (if r.pathExists ".git" = false then
        [{ name := "git:repository", passed := false,
           message := "Not a git repository", severity := "warning" }]
       else if r.pathExists ".git/hooks/pre-commit" then
         (if containsSubstr (r.readText ".git/hooks/pre-commit") "pre-commit" then
            [{ name := "precommit:installed", passed := true,
               message := "Pre-commit hooks are installed" }]
          else
            [{ name := "precommit:installed", passed := false,
               message := "Git pre-commit hook exists but is not pre-commit",
               severity := "warning" }])
       else
         [{ name := "precommit:installed", passed := false,
            message := "Pre-commit hooks not installed", severity := "error",
            fix_command := some "pre-commit install" }]) ∧
    (check_precommit_installed r).length = 1 := by
  constructor
  · unfold check_precommit_installed
    by_cases h : r.pathExists ".git" <;> simp [h]
  · unfold check_precommit_installed
    split_ifs <;> rfl

/-- For the `documentation` profile the CLAUDE.md section table is
empty, so the content check emits nothing whether or not the file
exists. -/
theorem claude_md_documentation_empty (r : Repo) :
    check_claude_md_content r PROFILE_DOCUMENTATION = [] := by
  unfold check_claude_md_content
  by_cases h : r.pathExists "CLAUDE.md" <;>
    simp [h, dictGet, CLAUDE_MD_SECTIONS_BY_PROFILE, PROFILE_PYTHON,
      PROFILE_STATIC_SITE, PROFILE_DOCUMENTATION, PROFILE_ORG_CONFIG]

/-- Every result of the license family is named `license:gpl3`. -/
theorem check_license_names (r : Repo) :
    ∀ c ∈ check_license r, c.name = "license:gpl3" := by
  unfold check_license
  by_cases h : r.pathExists "LICENSE" <;> simp [h]
  split <;> simp

/-- C7: for a repository detected as `documentation`, `check_repository`
emits exactly the RequiredFiles results for the two files LICENSE and
README.md followed by the License family; no CI, pre-commit config,
pre-commit installed, CLAUDE.md section, or Python project-file result
is emitted, whatever files exist. -/
theorem C7_documentation_only_required_files_and_license (r : Repo)
    (h : detect_profile r = PROFILE_DOCUMENTATION) :
    (check_repository r).checks =
      check_required_files r PROFILE_DOCUMENTATION ++ check_license r ∧
    (check_required_files r PROFILE_DOCUMENTATION).map CheckResult.name =
      ["file:LICENSE", "file:README.md"] ∧
    ∀ c ∈ (check_repository r).checks,
      c.name = "file:LICENSE" ∨ c.name = "file:README.md" ∨
        c.name = "license:gpl3" := by
  have hclaude : check_claude_md_content r "documentation" = [] :=
    claude_md_documentation_empty r
  have hchecks : (check_repository r).checks =
      check_required_files r PROFILE_DOCUMENTATION ++ check_license r := by
    simp only [check_repository, h]
    simp [dictGet, CI_REQUIRED_BY_PROFILE, PRECOMMIT_REQUIRED_BY_PROFILE,
      PROFILE_PYTHON, PROFILE_STATIC_SITE, PROFILE_DOCUMENTATION,
      PROFILE_ORG_CONFIG, hclaude]
  have hnames : (check_required_files r PROFILE_DOCUMENTATION).map CheckResult.name =
      ["file:LICENSE", "file:README.md"] := by
    simp [check_required_files, dictGet, REQUIRED_FILES_BY_PROFILE,
      PROFILE_PYTHON, PROFILE_STATIC_SITE, PROFILE_DOCUMENTATION,
      PROFILE_ORG_CONFIG, apply_ite CheckResult.name]
  refine ⟨hchecks, hnames, ?_⟩
  intro c hc
  rw [hchecks] at hc
  rcases List.mem_append.mp hc with hc | hc
  · have : c.name ∈ (check_required_files r PROFILE_DOCUMENTATION).map CheckResult.name :=
      List.mem_map_of_mem CheckResult.name hc
    rw [hnames] at this
    simp only [List.mem_cons, List.not_mem_nil, or_false] at this
    rcases this with h1 | h1
    · exact Or.inl h1
    · exact Or.inr (Or.inl h1)
  · exact Or.inr (Or.inr (check_license_names r c hc))

/-- C7, witness: a repository named "notes" holding only a README is
detected as `documentation` and its report consists of the two
required-file results plus nothing from the license family (no LICENSE
file), all with the allowed names. -/
theorem C7_documentation_only_required_files_and_license_witness :
    detect_profile { name := "notes", files := [("README.md", "hi")] } =
        PROFILE_DOCUMENTATION ∧
    (check_repository { name := "notes", files := [("README.md", "hi")] }).checks =
      check_required_files { name := "notes", files := [("README.md", "hi")] }
          PROFILE_DOCUMENTATION ++
        check_license { name := "notes", files := [("README.md", "hi")] } :=
  ⟨by decide,
   (C7_documentation_only_required_files_and_license
      { name := "notes", files := [("README.md", "hi")] } (by decide)).1⟩

/-- C8: `scan_directory` returns one report per subdirectory containing
a `.git` entry (and nothing for any other entry), the reports being the
repository checks of those subdirectories taken in lexicographic name
order; on one git repository plus one plain subdirectory it returns
exactly the one report. -/
theorem C8_scan_directory_git_subdirs_sorted (entries : List DirEntry) :
    (scan_directory entries).length =
      entries.countP (fun e => e.isDir && e.toRepo.pathExists ".git") ∧
    (∃ l : List DirEntry,
        l.Perm (entries.filter (fun e => e.isDir && e.toRepo.pathExists ".git")) ∧
        l.Sorted entryLE ∧
        scan_directory entries = l.map (fun e => check_repository e.toRepo)) ∧
    scan_directory
        [{ name := "alpha", isDir := true, dirs := [".git"] },
         { name := "beta", isDir := true }] =
      [check_repository
        (DirEntry.toRepo { name := "alpha", isDir := true, dirs := [".git"] })] := by
  refine ⟨?_, ?_, by decide⟩
  · unfold scan_directory
    rw [List.length_map, ← List.countP_eq_length_filter]
    exact (List.perm_insertionSort entryLE entries).countP_eq _
  · refine ⟨(entries.insertionSort entryLE).filter
      (fun e => e.isDir && e.toRepo.pathExists ".git"), ?_, ?_, rfl⟩
    · exact (List.perm_insertionSort entryLE entries).filter _
    · exact (List.sorted_insertionSort entryLE entries).filter _

end ComplianceChecker
